import Mathlib

/-!
Verification model of the LED animation engine
(`src/animation/LEDAnimationEngine.ts`).

The engine's per-frame pipeline (time update, pattern generators, 3D
transform, grid mapping, media blend, post-modifiers) and its playback /
export control surface are embedded as pure Lean functions over `ℚ`.
JavaScript `number` arithmetic is modelled by exact rational arithmetic.
The transcendental library calls (`Math.sin`, `Math.cos`, `Math.sqrt`,
`Math.atan2`, fractional `Math.pow`) are modelled by fixed computable
rational stand-ins — they are pure functions of their arguments, exactly
like the originals, and none of the theorems below depends on their
particular values (only `sinQ 0 = 0` and `cosQ 0 = 1`, which agree with
the IEEE functions, are ever evaluated).  The comparison
`Math.sqrt(d) < r` of the grid mapper is represented in the equivalent
squared form, which is exact.

Excluded collaborators (per the spec): the Three.js rendering backend,
image/video decoding and dithering (the dithered grid enters as an input
`List (List ℚ)`), and the DOM.  The fallible frame capture of the export
loop (`renderer.domElement.toDataURL`) is modelled as an injected
`capture` step returning `Except`.

Settings fields consumed only by the excluded backend (bloom, canvas
colour, media URL / dither parameters, `showGlow`, `showBackground`,
`enableMediaMode`, export `format`) are omitted from the settings record.
-/

namespace LedSpace

/-- Truncation toward zero, as JavaScript coerces in `a % b`
(`-⌊-q⌋` is `⌈q⌉`). -/
def qTrunc (q : ℚ) : ℤ := if q < 0 then -⌊-q⌋ else ⌊q⌋

/-- The JavaScript remainder operator `a % b` on numbers: the result has
the sign of the dividend.  (`b = 0` is unreachable in the engine: every
divisor is a positive constant or `2 × animationDuration`.) -/
def jsRem (a b : ℚ) : ℚ := a - b * (qTrunc (a / b) : ℚ)

/-- `Math.max lo (Math.min hi v)` as used for brightness clamping. -/
def clampQ (lo hi v : ℚ) : ℚ := max lo (min hi v)

/-- Computable rational stand-in for `Math.sin` (degree-7 Taylor
polynomial).  A fixed pure function, as the IEEE original is; no theorem
below depends on its values except `sinQ 0 = 0`, which is exact. -/
def sinQ (x : ℚ) : ℚ := x - x ^ 3 / 6 + x ^ 5 / 120 - x ^ 7 / 5040

/-- Computable rational stand-in for `Math.cos` (degree-6 Taylor
polynomial); only `cosQ 0 = 1` is ever used, which is exact. -/
def cosQ (x : ℚ) : ℚ := 1 - x ^ 2 / 2 + x ^ 4 / 24 - x ^ 6 / 720

/-- Computable rational stand-in for `Math.sqrt` (Newton iteration).
No theorem depends on its values. -/
def sqrtQ (x : ℚ) : ℚ :=
  (List.range 8).foldl (fun y _ => if y = 0 then 0 else (y + x / y) / 2) 1

/-- Computable rational stand-in for `Math.atan2`.  A fixed pure
function; no theorem depends on its values. -/
def atan2Q (y x : ℚ) : ℚ := if x = 0 ∧ y = 0 then 0 else y / (|x| + |y|)

/-- Computable rational stand-in for `Math.pow (x, 2.5)` (used only by
the radar trail fade); no theorem depends on its values. -/
def powTwoPointFive (x : ℚ) : ℚ := x * x * sqrtQ x

/-- The decimal value of the JavaScript `Math.PI` literal. -/
def piQ : ℚ := 3.141592653589793

/-- `mapRange` (engine line 1015): linear interpolation between ranges. -/
def mapRange (value inMin inMax outMin outMax : ℚ) : ℚ :=
  ((value - inMin) * (outMax - outMin)) / (inMax - inMin) + outMin

/-- Colours are modelled as exact RGB triples; `lerpColor` round-trips
through `THREE.Color` hex strings, which is componentwise linear
interpolation up to 8-bit quantisation (irrelevant to the claims). -/
abbrev Color := ℚ × ℚ × ℚ

/-- `lerpColor` (engine line 1019). -/
def lerpColor (c1 c2 : Color) (factor : ℚ) : Color :=
  (c1.1 + (c2.1 - c1.1) * factor,
   c1.2.1 + (c2.2.1 - c1.2.1) * factor,
   c1.2.2 + (c2.2.2 - c1.2.2) * factor)

/-- The value sequence of a `for` loop: start at `start`, add `step`
each iteration, for `fuel` iterations. -/
def rangeAux (start step : ℚ) : ℕ → List ℚ
  | 0 => []
  | n + 1 => start :: rangeAux (start + step) step n

/-- The loop `for (v = start; v < stop; v += step)` over numbers, for a
positive literal `step` (every such loop in the engine has a positive
constant step; a non-positive step would not terminate and is modelled
as the empty range).  The iteration count is `⌈(stop − start)/step⌉`,
written `-⌊-x⌋`. -/
def qRangeLt (start stop step : ℚ) : List ℚ :=
  if 0 < step then rangeAux start step (-⌊-((stop - start) / step)⌋).toNat else []

/-- The loop `for (v = start; v <= stop; v += step)`, analogously
(count `⌊(stop − start)/step⌋ + 1`). -/
def qRangeLe (start stop step : ℚ) : List ℚ :=
  if 0 < step then rangeAux start step (⌊(stop - start) / step⌋ + 1).toNat else []

/-- `displayMode: 'led' | 'media' | 'combined'` (the spec calls the
`led` value "pattern-only"). -/
inductive DisplayMode where
  | led
  | media
  | combined
deriving DecidableEq

/-- The engine-relevant part of `AnimationSettings`
(`src/types/animation.ts`). -/
structure AnimationSettings where
  gridSize : ℕ
  ledSpacing : ℚ
  innerRadius : ℚ
  outerRadius : ℚ
  animationDuration : ℚ
  enableBuildDebuild : Bool
  enableSpiral : Bool
  enableWave : Bool
  enableRipple : Bool
  enablePulse : Bool
  enableScanner : Bool
  enableSparkle : Bool
  enableRadar : Bool
  patternSpeed : ℚ
  enableRotation : Bool
  rotationSpeed : ℚ
  enableMorphing : Bool
  morphIntensity : ℚ
  enableColorTransition : Bool
  colorSpeed : ℚ
  ledColor : Color
  ledColor2 : Color
  ledColor3 : Color
  enableSpiralModifier : Bool
  enableYAxisRotate : Bool
  enableFlicker : Bool
  spiralIntensity : ℚ
  yRotateSpeed : ℚ
  flickerAmount : ℚ
  displayMode : DisplayMode
deriving DecidableEq

/-- `PlaybackState` (`src/types/animation.ts`). -/
structure PlaybackState where
  isPlaying : Bool
  isReversed : Bool
  currentTime : ℚ
  startTime : ℚ
  rotationAngle : ℚ
  yRotateAngle : ℚ
  pulseScale : ℚ
deriving DecidableEq

/-- `LEDState` (`src/types/animation.ts`). -/
structure LEDState where
  x : ℚ
  y : ℚ
  originalX : ℚ
  originalY : ℚ
  row : ℕ
  col : ℕ
  isOn : Bool
  brightness : ℚ
  targetBrightness : ℚ
  currentColor : Color
  animationOffset : ℚ
deriving DecidableEq

/-- `AnimationPoint3D` (`src/types/animation.ts`). -/
structure AnimationPoint3D where
  x : ℚ
  y : ℚ
  z : ℚ
  brightness : ℚ
  source : String
deriving DecidableEq

/-- One point of the engine's fixed base shape (`this.shape`). -/
structure ShapePoint where
  x : ℚ
  y : ℚ
  z : ℚ
  originalRadius : ℚ
  angle : ℚ
deriving DecidableEq

/-- The LED grid, row-major as in `this.ledGrid`. -/
abbrev Grid := List (List LEDState)

/-- `ExportSettings` (`src/types/animation.ts`); `format` concerns only
the excluded file encoders. -/
structure ExportSettings where
  fps : ℚ
  cycles : ℚ
  transparentBackground : Bool
deriving DecidableEq

/-- `createLEDGrid` (engine line 97). -/
def createLEDGrid (s : AnimationSettings) : Grid :=
  (List.range s.gridSize).map (fun (r : ℕ) =>
    (List.range s.gridSize).map (fun (c : ℕ) =>
      let startX : ℚ := -((s.gridSize : ℚ) * s.ledSpacing) / 2
      let startY : ℚ := -((s.gridSize : ℚ) * s.ledSpacing) / 2
      { x := startX + (c : ℚ) * s.ledSpacing
        y := startY + (r : ℚ) * s.ledSpacing
        originalX := startX + (c : ℚ) * s.ledSpacing
        originalY := startY + (r : ℚ) * s.ledSpacing
        row := r
        col := c
        isOn := false
        brightness := 0
        targetBrightness := 0
        currentColor := s.ledColor
        animationOffset := ((r : ℚ) + (c : ℚ)) * 1.5 }))

/-- `createSpokes` (engine line 130). -/
def createSpokes (s : AnimationSettings) : List ShapePoint :=
  (rangeAux 0 1 16).flatMap (fun i =>
    let angle : ℚ := piQ * 2 / 16 * i
    (qRangeLt s.innerRadius s.outerRadius 3).map (fun r =>
      { x := cosQ angle * r, y := sinQ angle * r, z := 0
        originalRadius := r, angle := angle }))

/-- `createRings` (engine line 149). -/
def createRings (s : AnimationSettings) : List ShapePoint :=
  (rangeAux 0 1 5).flatMap (fun i =>
    let radiusStep : ℚ := (s.outerRadius - s.innerRadius) / 5
    let radius : ℚ := s.innerRadius + radiusStep * i
    (qRangeLt 0 (piQ * 2) 0.3).map (fun angle =>
      { x := cosQ angle * radius, y := sinQ angle * radius, z := 0
        originalRadius := radius, angle := angle }))

/-- `createPulsingShape` (engine line 122): spokes then rings. -/
def createPulsingShape (s : AnimationSettings) : List ShapePoint :=
  createSpokes s ++ createRings s

/-- The cycle position computed by `updateAnimation` (engine lines
254-258): `currentTime % (2 × duration)`, flipped to
`2 × duration − cycleTime` when reversed. -/
def cyclePosition (s : AnimationSettings) (isReversed : Bool) (currentTime : ℚ) : ℚ :=
  let cycleTime := jsRem currentTime (s.animationDuration * 2)
  if isReversed then s.animationDuration * 2 - cycleTime else cycleTime

/-- The build-debuild pulse-scale envelope (engine lines 270-291),
as a function of the cycle position. -/
def pulseScaleOf (s : AnimationSettings) (cycleTime : ℚ) : ℚ :=
  if cycleTime < s.animationDuration then
    let t := cycleTime / s.animationDuration
    if t < 0.8 then
      let growthT := t / 0.8
      0.2 + (1 - (1 - growthT) ^ 3) * 0.8
    else 1.0
  else
    let t := (cycleTime - s.animationDuration) / s.animationDuration
    if t < 0.2 then 1.0
    else
      let shrinkT := (t - 0.2) / 0.8
      1.0 - (1 - (1 - shrinkT) ^ 3) * 0.8

/-- The `if (this.playbackState.isPlaying)` block of `updateAnimation`
(engine lines 252-292): recompute `currentTime` from the wall clock
(`now` models `Date.now()`), accumulate rotation angles, recompute the
pulse scale.  When paused, the playback state is untouched. -/
def updateAnimationState (s : AnimationSettings) (now : ℚ) (ps : PlaybackState) :
    PlaybackState :=
  if ps.isPlaying then
    let currentTime := now - ps.startTime
    let cycleTime := cyclePosition s ps.isReversed currentTime
    let rotationAngle :=
      if s.enableRotation then ps.rotationAngle + s.rotationSpeed * 0.02
      else ps.rotationAngle
    let yRotateAngle :=
      if s.enableYAxisRotate then ps.yRotateAngle + s.yRotateSpeed * 0.02
      else ps.yRotateAngle
    let pulseScale :=
      if s.enableBuildDebuild then pulseScaleOf s cycleTime else 1.0
    { ps with
      currentTime := currentTime
      rotationAngle := rotationAngle
      yRotateAngle := yRotateAngle
      pulseScale := pulseScale }
  else ps

/-- `collectBuildDebildPoints` (engine line 319). -/
def collectBuildDebildPoints (s : AnimationSettings) (ps : PlaybackState)
    (shape : List ShapePoint) : List AnimationPoint3D :=
  shape.map (fun point =>
    let morphed :=
      if s.enableMorphing then
        let morphOffset :=
          sinQ (ps.currentTime * 0.003 + point.angle * 3) * s.morphIntensity * 10
        let radius := sqrtQ (point.x * point.x + point.y * point.y)
        let angle := atan2Q point.y point.x
        let newRadius := radius + morphOffset
        (cosQ angle * newRadius, sinQ angle * newRadius)
      else (point.x, point.y)
    { x := morphed.1 * ps.pulseScale
      y := morphed.2 * ps.pulseScale
      z := point.z * ps.pulseScale
      brightness := 255
      source := "buildDebuild" })

/-- `collectSpiralPoints` (engine line 349). -/
def collectSpiralPoints (s : AnimationSettings) (ps : PlaybackState) :
    List AnimationPoint3D :=
  let spiralTime := ps.currentTime * 0.005 * s.patternSpeed
  (qRangeLe s.innerRadius s.outerRadius 5).map (fun r =>
    let angle := spiralTime + r * 0.1
    { x := cosQ angle * r, y := sinQ angle * r, z := 0
      brightness := 200, source := "spiral" })

/-- `collectWavePoints` (engine line 365). -/
def collectWavePoints (s : AnimationSettings) (ps : PlaybackState) :
    List AnimationPoint3D :=
  let waveTime := ps.currentTime * 0.01 * s.patternSpeed
  (qRangeLe s.innerRadius s.outerRadius 5).flatMap (fun radius =>
    (qRangeLt 0 (piQ * 2) 0.3).filterMap (fun angle =>
      let wave := sinQ (waveTime + radius * 0.1) * 0.5 + 0.5
      if wave > 0.3 then
        some { x := cosQ angle * radius, y := sinQ angle * radius, z := 0
               brightness := wave * 255 * 0.6, source := "wave" }
      else none))

/-- `collectRipplePoints` (engine line 387). -/
def collectRipplePoints (s : AnimationSettings) (ps : PlaybackState) :
    List AnimationPoint3D :=
  let rippleTime := ps.currentTime * 0.008 * s.patternSpeed
  (rangeAux 0 1 3).flatMap (fun i =>
    let rippleOffset := i / 3 * piQ * 2
    let rippleRadius :=
      (sinQ (rippleTime + rippleOffset) * 0.5 + 0.5) *
        (s.outerRadius - s.innerRadius) + s.innerRadius
    (qRangeLt 0 (piQ * 2) 0.2).map (fun angle =>
      { x := cosQ angle * rippleRadius, y := sinQ angle * rippleRadius, z := 0
        brightness := 200, source := "ripple" }))

/-- `collectPulsePoints` (engine line 411).  Note that it reads the wall
clock directly (`Date.now()`, the `now` argument), not the pausable
`ps.currentTime`. -/
def collectPulsePoints (s : AnimationSettings) (now : ℚ) : List AnimationPoint3D :=
  let pulseTime := now * 0.001 * s.patternSpeed / 2
  (rangeAux 0 1 5).flatMap (fun i =>
    let pulseOffset := i / 5
    let pulseProgress := jsRem (pulseTime + pulseOffset) 1
    let radius := s.innerRadius + pulseProgress * (s.outerRadius - s.innerRadius)
    let brightness := (1 - pulseProgress) ^ 2 * 255
    if brightness > 10 then
      (qRangeLt 0 (piQ * 2) 0.12).map (fun angle =>
        { x := cosQ angle * radius, y := sinQ angle * radius
          z := sinQ (pulseProgress * piQ) * 5
          brightness := brightness, source := "pulse" })
    else [])

/-- `collectScannerPoints` (engine line 441). -/
def collectScannerPoints (s : AnimationSettings) (ps : PlaybackState) :
    List AnimationPoint3D :=
  let scanTime := ps.currentTime * 0.003 * s.patternSpeed
  let scanAngle := (sinQ scanTime * 0.5 + 0.5) * piQ * 2
  (qRangeLe s.innerRadius s.outerRadius 3).map (fun radius =>
    { x := cosQ scanAngle * radius, y := sinQ scanAngle * radius, z := 0
      brightness := 255, source := "scanner" }) ++
  (rangeAux 1 1 2).flatMap (fun i =>
    let trailAngle := scanAngle - i * 0.15
    let trailBrightness := 255 - i * 90
    (qRangeLe s.innerRadius s.outerRadius 4).map (fun radius =>
      { x := cosQ trailAngle * radius, y := sinQ trailAngle * radius, z := 0
        brightness := trailBrightness, source := "scanner" }))

/-- `collectSparklePoints` (engine line 478): index-and-time hashed
pseudo-randomness (no mutable RNG state). -/
def collectSparklePoints (s : AnimationSettings) (ps : PlaybackState) :
    List AnimationPoint3D :=
  let sparkleTime := ps.currentTime * 0.01 * s.patternSpeed
  (rangeAux 0 1 50).flatMap (fun i =>
    let seed := i * 123.456 + (⌊sparkleTime / 300⌋ : ℚ) * 789.012
    let pseudoRandom := |jsRem (sinQ seed * 10000) 1|
    let pseudoRandom2 := |jsRem (cosQ (seed * 1.234) * 10000) 1|
    let pseudoRandom3 := |jsRem (sinQ (seed * 2.345) * 10000) 1|
    let baseAngle := pseudoRandom * piQ * 2
    let angleSpeed := (pseudoRandom3 - 0.5) * 0.3
    let angle := baseAngle + sparkleTime * angleSpeed
    let baseRadius :=
      s.innerRadius + pseudoRandom2 * (s.outerRadius - s.innerRadius)
    let radiusPulse := sinQ (sparkleTime * 0.8 + i * 0.3) * 8
    let radius := baseRadius + radiusPulse
    let flickerSpeed := 3 + pseudoRandom3 * 5
    let flicker := |sinQ (sparkleTime * flickerSpeed + i * 0.8)| ^ 3
    let brightness := flicker * 255
    if brightness > 20 then
      [{ x := cosQ angle * radius, y := sinQ angle * radius
         z := sinQ (sparkleTime * 0.5 + i) * 8
         brightness := brightness, source := "sparkle" }]
    else []) ++
  (rangeAux 0 1 3).flatMap (fun i =>
    let starSeed := i * 456.789 + (⌊sparkleTime / 800⌋ : ℚ) * 234.567
    let starRandom := |jsRem (sinQ starSeed * 10000) 1|
    let starPhase := jsRem (sparkleTime / 800) 1
    if starRandom > 0.7 then
      let startAngle := starRandom * piQ * 2
      let startRadius := s.innerRadius
      let endRadius := s.outerRadius
      (rangeAux 0 1 5).filterMap (fun t =>
        let progress := starPhase + t * 0.12
        if progress < 1 then
          let currentRadius := startRadius + progress * (endRadius - startRadius)
          let trailBrightness := (1 - progress) * (255 - t * 50)
          if trailBrightness > 0 then
            some { x := cosQ startAngle * currentRadius
                   y := sinQ startAngle * currentRadius, z := 0
                   brightness := trailBrightness, source := "sparkle" }
          else none
        else none)
    else [])

/-- `collectRadarPoints` (engine line 555). -/
def collectRadarPoints (s : AnimationSettings) (ps : PlaybackState) :
    List AnimationPoint3D :=
  let radarTime := ps.currentTime * 0.002 * s.patternSpeed
  let radarAngle := jsRem radarTime 1 * piQ * 2
  (qRangeLe s.innerRadius s.outerRadius 3).map (fun radius =>
    { x := cosQ radarAngle * radius, y := sinQ radarAngle * radius, z := 0
      brightness := 255, source := "radar" }) ++
  (rangeAux 0 1 3).flatMap (fun i =>
    let pulseAge := jsRem (radarTime * 2 + i * 0.33) 1
    let pulseRadius := s.innerRadius + pulseAge * (s.outerRadius - s.innerRadius)
    let pulseBrightness := (1 - pulseAge) ^ 2 * 200
    if pulseBrightness > 10 then
      (rangeAux 0 1 40).map (fun j =>
        let angle := j / 40 * piQ * 2
        { x := cosQ angle * pulseRadius, y := sinQ angle * pulseRadius, z := 0
          brightness := pulseBrightness, source := "radar" })
    else []) ++
  (rangeAux 1 1 5).flatMap (fun i =>
    let trailAngle := radarAngle - i * 0.15
    let fadeBrightness := 200 * powTwoPointFive (1 - i / 6)
    if fadeBrightness > 15 then
      (qRangeLe s.innerRadius s.outerRadius 6).map (fun radius =>
        { x := cosQ trailAngle * radius, y := sinQ trailAngle * radius, z := 0
          brightness := fadeBrightness, source := "radar" })
    else [])

/-- `collectStaticPoints` (engine line 620). -/
def collectStaticPoints (shape : List ShapePoint) : List AnimationPoint3D :=
  shape.map (fun point =>
    { x := point.x, y := point.y, z := point.z
      brightness := 150, source := "static" })

/-- `updateAnimatedPoints` (engine line 299): concatenation of the
enabled generators' points in source order, with the static fallback
when no pattern flag is set. -/
def updateAnimatedPoints (s : AnimationSettings) (ps : PlaybackState) (now : ℚ)
    (shape : List ShapePoint) : List AnimationPoint3D :=
  (if s.enableBuildDebuild then collectBuildDebildPoints s ps shape else []) ++
  (if s.enableSpiral then collectSpiralPoints s ps else []) ++
  (if s.enableWave then collectWavePoints s ps else []) ++
  (if s.enableRipple then collectRipplePoints s ps else []) ++
  (if s.enablePulse then collectPulsePoints s now else []) ++
  (if s.enableScanner then collectScannerPoints s ps else []) ++
  (if s.enableSparkle then collectSparklePoints s ps else []) ++
  (if s.enableRadar then collectRadarPoints s ps else []) ++
  (if !s.enableBuildDebuild && !s.enableSpiral &&
      !s.enableWave && !s.enableRipple &&
      !s.enablePulse && !s.enableScanner &&
      !s.enableSparkle && !s.enableRadar then
    collectStaticPoints shape
  else [])

/-- The activation test of `activateLEDsNearPoint` (engine line 811):
`Math.sqrt(dx² + dy²) < r`, written in the equivalent squared form
(both sides are nonnegative when the test can succeed, so the square is
exact; for `r ≤ 0` the original test is false, matching the `0 ≤ r`
guard with a strict square inequality). -/
def distLt (dx dy r : ℚ) : Bool :=
  decide (0 ≤ r) && decide (dx ^ 2 + dy ^ 2 < r ^ 2)

/-- Whether a screen point activates a grid element: distance to the
element's fixed original position below `0.7 × ledSpacing`. -/
def ledWithin (s : AnimationSettings) (screenX screenY : ℚ) (led : LEDState) : Bool :=
  distLt (screenX - led.originalX) (screenY - led.originalY) (s.ledSpacing * 0.7)

/-- The time-driven three-segment colour cycle applied when a point
raises an element's brightness (engine lines 817-826). -/
def cycleColor (s : AnimationSettings) (ps : PlaybackState) (led : LEDState) : Color :=
  let colorTime := ps.currentTime * 0.003 * s.colorSpeed
  let colorPhase := jsRem (colorTime + (led.row : ℚ) * 0.1 + (led.col : ℚ) * 0.1) 3
  if colorPhase < 1 then lerpColor s.ledColor s.ledColor2 colorPhase
  else if colorPhase < 2 then lerpColor s.ledColor2 s.ledColor3 (colorPhase - 1)
  else lerpColor s.ledColor3 s.ledColor (colorPhase - 2)

/-- The per-element body of `activateLEDsNearPoint` (engine lines
806-829): max-wins brightness, colour updated only inside the
strict-raise branch. -/
def activateLED (s : AnimationSettings) (ps : PlaybackState)
    (screenX screenY brightness : ℚ) (led : LEDState) : LEDState :=
  if ledWithin s screenX screenY led then
    if brightness > led.targetBrightness then
      { led with
        targetBrightness := brightness
        currentColor :=
          if s.enableColorTransition then cycleColor s ps led else led.currentColor }
    else led
  else led

/-- `activateLEDsNearPoint` (engine line 803): scan every grid element. -/
def activateLEDsNearPoint (s : AnimationSettings) (ps : PlaybackState)
    (screenX screenY brightness : ℚ) (grid : Grid) : Grid :=
  grid.map (fun row => row.map (activateLED s ps screenX screenY brightness))

/-- The 3D transform applied to each animated point inside
`updateLEDStates` (engine lines 741-773): optional Z rotation, optional
Y rotation of the (x,z) pair, perspective projection only under Y
rotation.  Returns (x, y, z) after all three. -/
def transformXYZ (s : AnimationSettings) (ps : PlaybackState)
    (p : AnimationPoint3D) : ℚ × ℚ × ℚ :=
  let xy :=
    if s.enableRotation then
      let c := cosQ ps.rotationAngle
      let si := sinQ ps.rotationAngle
      (p.x * c - p.y * si, p.x * si + p.y * c)
    else (p.x, p.y)
  let xz :=
    if s.enableYAxisRotate then
      let cY := cosQ ps.yRotateAngle
      let sY := sinQ ps.yRotateAngle
      (xy.1 * cY - p.z * sY, xy.1 * sY + p.z * cY)
    else (xy.1, p.z)
  let perspectiveScale :=
    if s.enableYAxisRotate then (400 : ℚ) / (400 + xz.2) else 1
  (xz.1 * perspectiveScale, xy.2 * perspectiveScale, xz.2)

/-- Depth handling for one point (engine lines 775-783): with Y
rotation, points at `z ≥ 50` are culled and nearer points get
depth-attenuated, clamped brightness; without Y rotation the raw
brightness is used. -/
def processPoint (s : AnimationSettings) (ps : PlaybackState)
    (grid : Grid) (p : AnimationPoint3D) : Grid :=
  let t := transformXYZ s ps p
  if s.enableYAxisRotate && decide (t.2.2 < 50) then
    activateLEDsNearPoint s ps t.1 t.2.1
      (clampQ 0 255 (p.brightness * mapRange t.2.2 (-100) 100 1.2 0.3)) grid
  else if !s.enableYAxisRotate then
    activateLEDsNearPoint s ps t.1 t.2.1 p.brightness grid
  else grid

/-- The same depth handling expressed per element (used to reason about
`processPoint` elementwise). -/
def processLED (s : AnimationSettings) (ps : PlaybackState)
    (p : AnimationPoint3D) (led : LEDState) : LEDState :=
  let t := transformXYZ s ps p
  if s.enableYAxisRotate && decide (t.2.2 < 50) then
    activateLED s ps t.1 t.2.1
      (clampQ 0 255 (p.brightness * mapRange t.2.2 (-100) 100 1.2 0.3)) led
  else if !s.enableYAxisRotate then
    activateLED s ps t.1 t.2.1 p.brightness led
  else led

/-- The grid mapper applied to a list of already-transformed screen
points `(x, y, brightness)` (the per-point calls to
`activateLEDsNearPoint`). -/
def mapPoints (s : AnimationSettings) (ps : PlaybackState)
    (pts : List (ℚ × ℚ × ℚ)) (grid : Grid) : Grid :=
  pts.foldl (fun g q => activateLEDsNearPoint s ps q.1 q.2.1 q.2.2 g) grid

/-- A map over the whole grid (both nested loops). -/
def mapGrid (f : LEDState → LEDState) (grid : Grid) : Grid :=
  grid.map (fun row => row.map f)

/-- A map over a list carrying the positional index, starting at `i`. -/
def mapRowsFrom (f : ℕ → α → β) : ℕ → List α → List β
  | _, [] => []
  | i, a :: as => f i a :: mapRowsFrom f (i + 1) as

/-- A map over the whole grid carrying (row, col) loop indices. -/
def mapGridIdx (f : ℕ → ℕ → LEDState → LEDState) (grid : Grid) : Grid :=
  mapRowsFrom (fun r row => mapRowsFrom (fun c led => f r c led) 0 row) 0 grid

/-- `this.ditheredGrid[row] && this.ditheredGrid[row][col] !== undefined`:
the media grid value at a (row, col) loop index, when present. -/
def lookup2 (d : List (List ℚ)) (r c : ℕ) : Option ℚ :=
  d[r]?.bind (fun row => row[c]?)

/-- The reset loop of `updateLEDStates` (engine lines 715-720). -/
def resetGrid (s : AnimationSettings) (grid : Grid) : Grid :=
  mapGrid (fun led => { led with targetBrightness := 0, currentColor := s.ledColor }) grid

/-- The media-only overwrite (engine lines 728-737). -/
def mediaApply (d : List (List ℚ)) (grid : Grid) : Grid :=
  mapGridIdx (fun r c led =>
    match lookup2 d r c with
    | some v => { led with targetBrightness := v }
    | none => led) grid

/-- The combined-mode blend (engine lines 787-800):
`Math.max(mediaBrightness, ledBrightness)`. -/
def combineApply (d : List (List ℚ)) (grid : Grid) : Grid :=
  mapGridIdx (fun r c led =>
    match lookup2 d r c with
    | some m => { led with targetBrightness := max m led.targetBrightness }
    | none => led) grid

/-- The pattern part of `updateLEDStates`: reset, then transform and
rasterise every animated point. -/
def patternStage (s : AnimationSettings) (ps : PlaybackState)
    (pts : List AnimationPoint3D) (grid : Grid) : Grid :=
  pts.foldl (processPoint s ps) (resetGrid s grid)

/-- `updateLEDStates` (engine line 713).  The video-frame reprocessing
hook on line 723 belongs to the excluded dithering collaborator; the
dithered grid is an input here. -/
def updateLEDStates (s : AnimationSettings) (ps : PlaybackState)
    (dithered : List (List ℚ)) (pts : List AnimationPoint3D) (grid : Grid) : Grid :=
  if s.displayMode = DisplayMode.media ∧ dithered ≠ [] then
    mediaApply dithered (resetGrid s grid)
  else
    let g1 := patternStage s ps pts grid
    if s.displayMode = DisplayMode.combined ∧ dithered ≠ [] then
      combineApply dithered g1
    else g1

/-- `applySpiralDistortion` (engine line 844). -/
def applySpiralDistortion (s : AnimationSettings) (ps : PlaybackState)
    (grid : Grid) : Grid :=
  let spiralTime := ps.currentTime * 0.003
  mapGrid (fun led =>
    if led.targetBrightness > 30 then
      let distFromCenter :=
        sqrtQ (led.originalX ^ 2 + led.originalY ^ 2)
      let spiralWave := sinQ (spiralTime * 3 + distFromCenter * 0.1)
      let brightnessModifier := 0.5 + spiralWave * s.spiralIntensity * 0.5
      { led with
        targetBrightness := clampQ 0 255 (led.targetBrightness * brightnessModifier) }
    else led) grid

/-- `applyFlickerEffect` (engine line 865). -/
def applyFlickerEffect (s : AnimationSettings) (ps : PlaybackState)
    (grid : Grid) : Grid :=
  mapGrid (fun led =>
    if led.targetBrightness > 30 then
      let flickerValue0 :=
        sinQ (ps.currentTime * 0.05 + (led.row : ℚ) * 13.7 + (led.col : ℚ) * 7.3)
          * 0.5 + 0.5 +
        sinQ (ps.currentTime * 0.1 + (led.row : ℚ) * 5.1 + (led.col : ℚ) * 11.9)
          * 0.3
      let flickerValue := clampQ 0 1 flickerValue0
      let flickerMultiplier := 1 - s.flickerAmount * (1 - flickerValue)
      { led with
        targetBrightness := clampQ 0 255 (led.targetBrightness * flickerMultiplier) }
    else led) grid

/-- `applyModifiers` (engine line 834). -/
def applyModifiers (s : AnimationSettings) (ps : PlaybackState) (grid : Grid) : Grid :=
  let g1 := if s.enableSpiralModifier then applySpiralDistortion s ps grid else grid
  if s.enableFlicker then applyFlickerEffect s ps g1 else g1

/-- The engine state the per-frame pipeline touches. -/
structure EngineState where
  ps : PlaybackState
  grid : Grid
deriving DecidableEq

/-- `updateAnimation` (engine line 251): time update, point generation,
grid update, post-modifiers.  `now` models `Date.now()`. -/
def updateAnimation (s : AnimationSettings) (now : ℚ)
    (shape : List ShapePoint) (dithered : List (List ℚ))
    (st : EngineState) : EngineState :=
  let ps := updateAnimationState s now st.ps
  let pts := updateAnimatedPoints s ps now shape
  let g1 := updateLEDStates s ps dithered pts st.grid
  { ps := ps, grid := applyModifiers s ps g1 }

/-- The brightness-easing part of `render` (engine lines 892-903); the
GPU work below it belongs to the excluded rendering backend. -/
def easeLED (led : LEDState) : LEDState :=
  let diff := led.targetBrightness - led.brightness
  if |diff| > 0.1 then
    { led with brightness := led.brightness + diff * 0.15 ^ 3 + diff * 0.15 * 0.5 }
  else { led with brightness := led.targetBrightness }

/-- The visible-state easing applied by `render` each frame. -/
def renderEase (grid : Grid) : Grid := mapGrid easeLED grid

/-- `play` (engine line 940). -/
def play (ps : PlaybackState) : PlaybackState :=
  { ps with isPlaying := true, isReversed := false }

/-- `pause` (engine line 945). -/
def pause (ps : PlaybackState) : PlaybackState :=
  { ps with isPlaying := false }

/-- `reset` (engine line 949); `now` models `Date.now()`. -/
def reset (now : ℚ) (ps : PlaybackState) : PlaybackState :=
  { ps with
    startTime := now
    pulseScale := 0.2
    isReversed := false
    rotationAngle := 0
    yRotateAngle := 0 }

/-- `reverse` (engine line 957). -/
def reverse (ps : PlaybackState) : PlaybackState :=
  { ps with isPlaying := true, isReversed := true }

/-- `totalFrames` of `exportSequence` (engine lines 969-970). -/
def totalExportFrames (s : AnimationSettings) (es : ExportSettings) : ℕ :=
  (⌊s.animationDuration * 2 * es.cycles / 1000 * es.fps⌋).toNat

/-- One iteration of the export loop body (engine lines 987-989):
inject the frame timestamp `(i / fps) × 1000`, run `updateAnimation`,
then `render`'s brightness easing. -/
def exportStep (s : AnimationSettings) (es : ExportSettings) (now : ℚ)
    (shape : List ShapePoint) (dithered : List (List ℚ))
    (i : ℕ) (st : EngineState) : EngineState :=
  let st1 : EngineState :=
    { st with ps := { st.ps with currentTime := ((i : ℚ) / es.fps) * 1000 } }
  let st2 := updateAnimation s now shape dithered st1
  { st2 with grid := renderEase st2.grid }

/-- The per-frame export loop (engine lines 986-995).  `capture` models
`render`'s GPU submission plus `exportFrame` (`canvas.toDataURL`), the
only fallible steps; on failure the exception propagates with the
engine state as the loop left it. -/
def exportLoop (s : AnimationSettings) (es : ExportSettings) (now : ℚ)
    (shape : List ShapePoint) (dithered : List (List ℚ))
    (capture : EngineState → Except String F) :
    ℕ → ℕ → List F → EngineState → Except (String × EngineState) (List F × EngineState)
  | 0, _, frames, st => .ok (frames, st)
  | n + 1, i, frames, st =>
    let st3 := exportStep s es now shape dithered i st
    match capture st3 with
    | .ok f => exportLoop s es now shape dithered capture n (i + 1) (frames ++ [f]) st3
    | .error e => .error (e, st3)

/-- `exportSequence` (engine line 967): save the time state, run the
injected-clock loop with `isPlaying = false`, and restore the saved
state after the loop.  There is no try/finally: the restore on lines
998-1000 runs only when every frame succeeds.  (The clear-colour
save/restore concerns the excluded renderer; the 1 ms `setTimeout`
yield has no state effect.) -/
def exportSequence (s : AnimationSettings) (es : ExportSettings) (now : ℚ)
    (shape : List ShapePoint) (dithered : List (List ℚ))
    (capture : EngineState → Except String F) (st : EngineState) :
    Except (String × EngineState) (List F × EngineState) :=
  let originalPlaying := st.ps.isPlaying
  let originalTime := st.ps.currentTime
  let originalStartTime := st.ps.startTime
  let st0 : EngineState :=
    { st with ps := { st.ps with isPlaying := false, startTime := now, currentTime := 0 } }
  match exportLoop s es now shape dithered capture (totalExportFrames s es) 0 [] st0 with
  | .error e => .error e
  | .ok (frames, st1) =>
    .ok (frames,
      { st1 with ps := { st1.ps with
          isPlaying := originalPlaying
          startTime := originalStartTime
          currentTime := originalTime } })

/-- `Except.isOk` helper for stating results. -/
def exceptIsOk : Except ε α → Bool
  | .ok _ => true
  | .error _ => false

/-- The target brightness of the grid element at a (row, col) loop
index (`0` when out of range). -/
def ledAt (grid : Grid) (r c : ℕ) : Option LEDState :=
  grid[r]?.bind (fun row => row[c]?)

/-- The target brightness at a (row, col) index, defaulting to 0. -/
def gridTarget (grid : Grid) (r c : ℕ) : ℚ :=
  ((ledAt grid r c).map (fun led => led.targetBrightness)).getD 0

/-- A baseline settings record used to build concrete scenarios: the
spec's example values (gridSize 10, spacing 12, radii 10/40, duration
1000 ms), every feature flag off, unit speeds. -/
def baseSettings : AnimationSettings :=
  { gridSize := 10
    ledSpacing := 12
    innerRadius := 10
    outerRadius := 40
    animationDuration := 1000
    enableBuildDebuild := false
    enableSpiral := false
    enableWave := false
    enableRipple := false
    enablePulse := false
    enableScanner := false
    enableSparkle := false
    enableRadar := false
    patternSpeed := 1
    enableRotation := false
    rotationSpeed := 1
    enableMorphing := false
    morphIntensity := 0.5
    enableColorTransition := false
    colorSpeed := 1
    ledColor := (1, 0.42, 0.42)
    ledColor2 := (0.3, 0.69, 0.31)
    ledColor3 := (0.13, 0.59, 0.95)
    enableSpiralModifier := false
    enableYAxisRotate := false
    enableFlicker := false
    spiralIntensity := 0.5
    yRotateSpeed := 1
    flickerAmount := 0.3
    displayMode := DisplayMode.led }

/-- A baseline playing state (as right after `reset` at wall-clock 0). -/
def basePS : PlaybackState :=
  { isPlaying := true, isReversed := false, currentTime := 0, startTime := 0
    rotationAngle := 0, yRotateAngle := 0, pulseScale := 0.2 }

/-- C1 scenario: an empty grid (gridSize 0), no patterns; export of
2 frames (fps 1, 1 cycle) whose frame capture throws. -/
def sC1 : AnimationSettings := { baseSettings with gridSize := 0 }

/-- C1 pre-call playback state: playing at currentTime 500, anchored at
startTime 100. -/
def psC1 : PlaybackState :=
  { basePS with isPlaying := true, currentTime := 500, startTime := 100 }

/-- C1 export settings. -/
def esC1 : ExportSettings := { fps := 1, cycles := 1, transparentBackground := false }

/-- C1 run: `exportSequence` at wall-clock 999 with a capture that
throws on the first frame. -/
def c1Run : Except (String × EngineState) (List Unit × EngineState) :=
  exportSequence sC1 esC1 999 [] [] (fun _ => Except.error "toDataURL failed")
    { ps := psC1, grid := [] }

/-- The playback state the engine is left in by `c1Run`. -/
def c1PostPS : PlaybackState :=
  match c1Run with
  | .error (_, st) => st.ps
  | .ok (_, st) => st.ps

/-- C2 scenario: only the pulse pattern enabled, degenerate radii 0 so
every pulse point sits at the origin, on a 2×2 grid whose element (1,1)
is at the origin. -/
def sC2 : AnimationSettings :=
  { baseSettings with gridSize := 2, innerRadius := 0, outerRadius := 0, enablePulse := true }

/-- C2 injected-clock playback state (`isPlaying = false`,
`currentTime = 0`). -/
def psC2 : PlaybackState := { basePS with isPlaying := false, pulseScale := 1 }

/-- C2 frame computed at wall clock 0. -/
def c2GridA : Grid :=
  (updateAnimation sC2 0 [] [] { ps := psC2, grid := createLEDGrid sC2 }).grid

/-- C2 frame computed at wall clock 1000 (same settings, same injected
`currentTime`). -/
def c2GridB : Grid :=
  (updateAnimation sC2 1000 [] [] { ps := psC2, grid := createLEDGrid sC2 }).grid

/-- C3 scenario: buildDebuild only, empty grid, export at fps 5 for one
cycle (10 frames, 200 ms apart). -/
def sC3 : AnimationSettings := { baseSettings with gridSize := 0, enableBuildDebuild := true }

/-- C3 pre-call playback state (playing, pulseScale at the reset value
0.2). -/
def psC3 : PlaybackState :=
  { basePS with isPlaying := true, currentTime := 123, startTime := 5 }

/-- C3 export settings. -/
def esC3 : ExportSettings := { fps := 5, cycles := 1, transparentBackground := false }

/-- C3 run: export with a capture that snapshots the playback state of
each processed frame. -/
def c3Frames : List PlaybackState :=
  match exportSequence sC3 esC3 999 [] [] (fun st => Except.ok st.ps)
      { ps := psC3, grid := [] } with
  | .ok (frames, _) => frames
  | .error _ => []

/-- C4 scenario: media display mode with the flicker modifier enabled,
1×1 grid, media grid value 255. -/
def sC4 : AnimationSettings :=
  { baseSettings with
    gridSize := 1
    displayMode := DisplayMode.media
    enableFlicker := true
    flickerAmount := 1 }

/-- C4 playback state (paused at currentTime 0). -/
def psC4 : PlaybackState := { basePS with isPlaying := false }

/-- C4 frame: one media-mode update on the 1×1 grid. -/
def c4Grid : Grid :=
  (updateAnimation sC4 0 [] [[255]] { ps := psC4, grid := createLEDGrid sC4 }).grid

/-- C5 witness scenario: 2×2 grid (element (1,1) at the origin), two
overlapping points at the origin with brightness 100 and 200. -/
def sC5 : AnimationSettings := { baseSettings with gridSize := 2 }

/-- C5 the element (1,1) of `createLEDGrid sC5`. -/
def ledC5 : LEDState :=
  { x := 0, y := 0, originalX := 0, originalY := 0, row := 1, col := 1
    isOn := false, brightness := 0, targetBrightness := 0
    currentColor := sC5.ledColor, animationOffset := 3 }

/-- C5 witness points (screenX, screenY, brightness). -/
def ptsC5 : List (ℚ × ℚ × ℚ) := [(0, 0, 100), (0, 0, 200)]

/-- C7 witness scenario: combined display mode on a 1×1 grid. -/
def sC7 : AnimationSettings :=
  { baseSettings with gridSize := 1, displayMode := DisplayMode.combined }

/-- C8 witness scenario: Y-axis rotation enabled, angle 0 so the
rotation matrix is exact under the trig stand-ins. -/
def sC8 : AnimationSettings := { baseSettings with enableYAxisRotate := true }

/-- C8 test points: depth 60 (culled) and depth 0 (attenuated). -/
def ptC8far : AnimationPoint3D :=
  { x := 0, y := 0, z := 60, brightness := 200, source := "pulse" }

/-- C8 near point. -/
def ptC8near : AnimationPoint3D :=
  { x := 0, y := 0, z := 0, brightness := 200, source := "pulse" }

/-- C6 scenario: the spec's example scenario (duration 1000 ms,
buildDebuild only, playing forward, startTime 0 so that the injected
wall clock equals `currentTime`). -/
def sC6 : AnimationSettings := { baseSettings with enableBuildDebuild := true }

/-- C6: the pulse scale `updateAnimation` computes at a given
`currentTime` in that scenario. -/
def pulseAtC6 (t : ℚ) : ℚ := (updateAnimationState sC6 t basePS).pulseScale

/-! ## Theorems -/

/-- Claim C9: for every `currentTime` and `animationDuration`, the
effective cycle position after `reverse()` equals `2 × duration` minus
the cycle position the same `currentTime` yields when not reversed
(engine lines 254-258 and 957-960). -/
theorem reverse_cycle_position (s : AnimationSettings) (ps : PlaybackState) (t : ℚ) :
    cyclePosition s (reverse ps).isReversed t =
      2 * s.animationDuration - cyclePosition s ({ ps with isReversed := false }).isReversed t := by
  simp only [cyclePosition, reverse]
  norm_num
  ring

/-- Claim C10: `play()` sets `isPlaying := true` and `isReversed :=
false` (so playing during reversed playback switches back to forward),
and `reverse()` sets `isPlaying := true` as well as `isReversed := true`
(so reversing while paused resumes playback). -/
theorem play_reverse_flags (ps : PlaybackState) :
    (play ps).isPlaying = true ∧ (play ps).isReversed = false ∧
    (reverse ps).isPlaying = true ∧ (reverse ps).isReversed = true :=
  ⟨rfl, rfl, rfl, rfl⟩

/-- In the C6 scenario the pulse scale is the build-debuild envelope of
`currentTime % 2000`. -/
lemma pulseAtC6_eq (t : ℚ) : pulseAtC6 t = pulseScaleOf sC6 (jsRem t 2000) := by
  simp [pulseAtC6, updateAnimationState, cyclePosition, basePS, sC6, baseSettings]
  norm_num

/-- `t % 2000 = t` on `[0, 2000)`. -/
lemma jsRem_2000_eq_self (t : ℚ) (h0 : 0 ≤ t) (h1 : t < 2000) : jsRem t 2000 = t := by
  have hq0 : (0 : ℚ) ≤ t / 2000 := by positivity
  have hq1 : t / 2000 < 1 := (div_lt_one (by norm_num)).mpr h1
  have hfl : ⌊t / 2000⌋ = 0 := Int.floor_eq_zero_iff.mpr ⟨hq0, hq1⟩
  rw [jsRem, qTrunc, if_neg (by linarith), hfl]
  norm_num

/-- Closed form of the C6 envelope on the shrink window `[1200, 2000)`. -/
lemma pulseScaleOf_sC6_shrink (t : ℚ) (h1 : 1200 ≤ t) (_h2 : t < 2000) :
    pulseScaleOf sC6 t = 1 / 5 + 4 / 5 * ((2000 - t) / 800) ^ 3 := by
  have hd : sC6.animationDuration = 1000 := rfl
  rw [pulseScaleOf, hd, if_neg (by linarith), if_neg (by rw [not_lt] ; rw [le_div_iff₀ (by norm_num : (0:ℚ) < 1000)] ; norm_num ; linarith)]
  field_simp
  ring

/-- Closed form of `pulseAtC6` on `[1200, 2000]` (at 2000 the cycle
wraps to the growth branch, whose value 0.2 coincides with the shrink
formula's limit). -/
lemma pulseAtC6_closed (t : ℚ) (h1 : 1200 ≤ t) (h2 : t ≤ 2000) :
    pulseAtC6 t = 1 / 5 + 4 / 5 * ((2000 - t) / 800) ^ 3 := by
  rcases eq_or_lt_of_le h2 with rfl | h2'
  · norm_num [pulseAtC6, updateAnimationState, cyclePosition, pulseScaleOf, jsRem, qTrunc,
      basePS, sC6, baseSettings]
  · rw [pulseAtC6_eq, jsRem_2000_eq_self t (by linarith) h2',
      pulseScaleOf_sC6_shrink t h1 h2']

/-- Claim C6 (corrected): in the spec's example scenario the pulse
scale is 0.2 at t=0, 1.0 at t=800, t=1000 and also at t=1200 exactly
(the claim's "strictly between" fails at 1200); it is strictly between
0.2 and 1.0 for 1200 < t < 2000, and strictly decreasing on
[1200, 2000]. -/
theorem pulse_scale_envelope_spec :
    pulseAtC6 0 = 0.2 ∧ pulseAtC6 800 = 1 ∧ pulseAtC6 1000 = 1 ∧ pulseAtC6 1200 = 1 ∧
    (∀ t : ℚ, 1200 < t → t < 2000 → 0.2 < pulseAtC6 t ∧ pulseAtC6 t < 1) ∧
    (∀ a b : ℚ, 1200 ≤ a → a < b → b ≤ 2000 → pulseAtC6 b < pulseAtC6 a) := by
  refine ⟨?_, ?_, ?_, ?_, ?_, ?_⟩
  · norm_num [pulseAtC6, updateAnimationState, cyclePosition, pulseScaleOf, jsRem, qTrunc,
      basePS, sC6, baseSettings]
  · norm_num [pulseAtC6, updateAnimationState, cyclePosition, pulseScaleOf, jsRem, qTrunc,
      basePS, sC6, baseSettings]
  · norm_num [pulseAtC6, updateAnimationState, cyclePosition, pulseScaleOf, jsRem, qTrunc,
      basePS, sC6, baseSettings]
  · norm_num [pulseAtC6, updateAnimationState, cyclePosition, pulseScaleOf, jsRem, qTrunc,
      basePS, sC6, baseSettings]
  · intro t ht1 ht2
    rw [pulseAtC6_closed t (le_of_lt ht1) (le_of_lt ht2)]
    have hu0 : (0 : ℚ) < (2000 - t) / 800 := div_pos (by linarith) (by norm_num)
    constructor
    · nlinarith [pow_pos hu0 3]
    · have hu1 : (2000 - t) / 800 < 1 := by rw [div_lt_one (by norm_num)] ; linarith
      nlinarith [pow_lt_one₀ (le_of_lt hu0) hu1 (by norm_num : (3 : ℕ) ≠ 0)]
  · intro a b ha hab hb
    rw [pulseAtC6_closed a ha (by linarith), pulseAtC6_closed b (by linarith) hb]
    have h0b : (0 : ℚ) ≤ (2000 - b) / 800 := div_nonneg (by linarith) (by norm_num)
    have hba : (2000 - b) / 800 < (2000 - a) / 800 :=
      (div_lt_div_iff_of_pos_right (by norm_num)).mpr (by linarith)
    nlinarith [pow_lt_pow_left₀ hba h0b (by norm_num : (3 : ℕ) ≠ 0)]


/-- Claim C6 counterexample: at `currentTime = 1200` the pulse scale is
exactly 1.0, not strictly between 0.2 and 1.0 as the claim states. -/
theorem pulse_scale_at_1200_eq_one :
    pulseAtC6 1200 = 1 ∧ ¬(0.2 < pulseAtC6 1200 ∧ pulseAtC6 1200 < 1) := by
  have h : pulseAtC6 1200 = 1 := by
    norm_num [pulseAtC6, updateAnimationState, cyclePosition, pulseScaleOf, jsRem, qTrunc,
      basePS, sC6, baseSettings]
  exact ⟨h, fun hc => absurd (h ▸ hc.2) (by norm_num)⟩

/-- Witness for `pulse_scale_envelope_spec` at t = 1300 and t = 1600. -/
theorem pulse_scale_envelope_spec_witness :
    (0.2 : ℚ) < pulseAtC6 1600 ∧ pulseAtC6 1600 < 1 ∧ pulseAtC6 1600 < pulseAtC6 1300 :=
  ⟨(pulse_scale_envelope_spec.2.2.2.2.1 1600 (by norm_num) (by norm_num)).1,
   (pulse_scale_envelope_spec.2.2.2.2.1 1600 (by norm_num) (by norm_num)).2,
   pulse_scale_envelope_spec.2.2.2.2.2 1300 1600 (by norm_num) (by norm_num) (by norm_num)⟩

/-- Claim C1 (code bug): when the frame capture throws on the first
frame, `exportSequence` propagates the exception without restoring the
time state — the engine is left with `isPlaying = false`, `startTime`
re-anchored to the wall clock (999) and `currentTime` at the injected
frame time (0), though the pre-call state was playing at
`currentTime = 500`, `startTime = 100`.  The restore on engine lines
998-1000 runs only on the success path (no try/finally). -/
theorem exportSequence_error_leaves_time_state :
    exceptIsOk c1Run = false ∧ c1PostPS.isPlaying = false ∧
    c1PostPS.startTime = 999 ∧ c1PostPS.currentTime = 0 ∧
    psC1.isPlaying = true ∧ psC1.startTime = 100 ∧ psC1.currentTime = 500 := by
  norm_num [c1Run, c1PostPS, exportSequence, exportLoop, exportStep, totalExportFrames, exceptIsOk,
    updateAnimation, updateAnimationState, updateAnimatedPoints, collectStaticPoints,
    updateLEDStates, patternStage, resetGrid, mapGrid, applyModifiers, renderEase,
    mediaApply, mapGridIdx, mapRowsFrom,
    sC1, psC1, esC1, baseSettings, basePS]

/-- When paused, `updateAnimation` leaves the playback state untouched
(engine line 252). -/
lemma updateAnimationState_not_playing (s : AnimationSettings) (now : ℚ)
    (ps : PlaybackState) (h : ps.isPlaying = false) :
    updateAnimationState s now ps = ps := by
  simp [updateAnimationState, h]

/-- The full frame pipeline does not change the playback state while
paused. -/
lemma updateAnimation_ps_not_playing (s : AnimationSettings) (now : ℚ)
    (shape : List ShapePoint) (dithered : List (List ℚ)) (st : EngineState)
    (h : st.ps.isPlaying = false) :
    (updateAnimation s now shape dithered st).ps = st.ps := by
  simp [updateAnimation, updateAnimationState_not_playing s now st.ps h]

/-- While paused, one export iteration only replaces `currentTime` by
the injected timestamp. -/
lemma exportStep_ps (s : AnimationSettings) (es : ExportSettings) (now : ℚ)
    (shape : List ShapePoint) (dithered : List (List ℚ)) (i : ℕ) (st : EngineState)
    (h : st.ps.isPlaying = false) :
    (exportStep s es now shape dithered i st).ps =
      { st.ps with currentTime := ((i : ℚ) / es.fps) * 1000 } := by
  have h1 : ({ st with ps := { st.ps with currentTime := ((i : ℚ) / es.fps) * 1000 } } :
      EngineState).ps.isPlaying = false := h
  simp only [exportStep]
  exact updateAnimation_ps_not_playing s now shape dithered _ h1

/-- The export loop with a state-snapshotting capture: every processed
frame is the loop-entry playback state with only `currentTime` replaced
by the injected timestamp `(i/fps) × 1000` — in particular
`isPlaying`, `pulseScale` and the rotation angles never change. -/
lemma exportLoop_ok_snapshots (s : AnimationSettings) (es : ExportSettings) (now : ℚ)
    (shape : List ShapePoint) (dithered : List (List ℚ)) :
    ∀ (n i : ℕ) (frames : List PlaybackState) (st : EngineState),
      st.ps.isPlaying = false →
      ∃ stF : EngineState,
        exportLoop s es now shape dithered (fun st => Except.ok st.ps) n i frames st =
          .ok (frames ++ (List.range n).map
            (fun j => { st.ps with currentTime := (((i + j : ℕ) : ℚ) / es.fps) * 1000 }), stF) := by
  intro n
  induction n with
  | zero => intro i frames st _ ; exact ⟨st, by simp [exportLoop]⟩
  | succ n ih =>
    intro i frames st h
    have hstep := exportStep_ps s es now shape dithered i st h
    have hplay : (exportStep s es now shape dithered i st).ps.isPlaying = false := by
      rw [hstep] ; exact h
    obtain ⟨stF, hF⟩ := ih (i + 1)
      (frames ++ [(exportStep s es now shape dithered i st).ps])
      (exportStep s es now shape dithered i st) hplay
    refine ⟨stF, ?_⟩
    rw [exportLoop]
    simp only []
    rw [hF, hstep]
    rw [List.append_assoc]
    congr 1
    rw [List.range_succ_eq_map]
    simp only [List.map_cons, List.map_map, List.singleton_append]
    congr 1
    congr 1
    all_goals try simp
    all_goals intro a _ ; ring

/-- Claim C3 (corrected): during `exportSequence`'s loop, `isPlaying`
is `false` (line 982 sets it so that the injected `currentTime` is not
overwritten from the wall clock).  Every processed frame runs the full
pipeline at playback state = the pre-call state with `isPlaying :=
false`, `startTime := now` and `currentTime := (j/fps) × 1000`; in
particular the `isPlaying`-gated state (`pulseScale`, the rotation
angles) is **not** recomputed for the injected timestamps — it stays at
its pre-export value in every frame.  On this all-frames-succeed path
the time state is restored afterwards. -/
theorem exportSequence_frames_injected_not_playing
    (s : AnimationSettings) (es : ExportSettings) (now : ℚ)
    (shape : List ShapePoint) (dithered : List (List ℚ))
    (ps : PlaybackState) (grid : Grid) :
    ∃ (gridF : Grid) (psF : PlaybackState),
      exportSequence s es now shape dithered (fun st => Except.ok st.ps)
        { ps := ps, grid := grid } =
        .ok ((List.range (totalExportFrames s es)).map
          (fun (j : ℕ) => { ps with
                      isPlaying := false
                      startTime := now
                      currentTime := ((j : ℚ) / es.fps) * 1000 }),
          { ps := psF, grid := gridF }) ∧
      psF.isPlaying = ps.isPlaying ∧ psF.startTime = ps.startTime ∧
      psF.currentTime = ps.currentTime := by
  obtain ⟨stF, hloop⟩ := exportLoop_ok_snapshots s es now shape dithered
    (totalExportFrames s es) 0 []
    { ps := { ps with isPlaying := false, startTime := now, currentTime := 0 }, grid := grid }
    rfl
  refine ⟨stF.grid,
    { stF.ps with
      isPlaying := ps.isPlaying
      startTime := ps.startTime
      currentTime := ps.currentTime }, ?_, rfl, rfl, rfl⟩
  simp only [exportSequence]
  rw [hloop]
  simp only []
  congr 2
  rw [List.nil_append]
  apply List.map_congr_left
  intro j _
  simp only [Nat.zero_add]

/-- Claim C3 counterexample: in a concrete export (buildDebuild
enabled, duration 1000 ms, fps 5, pre-call state playing with
`pulseScale = 0.2`), the frame processed for injected
`currentTime = 800` carries `isPlaying = false` and `pulseScale = 0.2`,
while recomputing the playing-state at `currentTime = 800` would give
`pulseScale = 1`.  So `isPlaying` does not remain logically true and
the pulse scale is not recomputed per injected timestamp. -/
theorem exportSequence_frame_not_playing :
    (c3Frames.getD 4 basePS).isPlaying = false ∧
    (c3Frames.getD 4 basePS).currentTime = 800 ∧
    (c3Frames.getD 4 basePS).pulseScale = 0.2 ∧
    psC3.isPlaying = true ∧
    (updateAnimationState sC3 800 { psC3 with startTime := 0 }).pulseScale = 1 ∧
    (0.2 : ℚ) ≠ 1 := by
  have hn : totalExportFrames sC3 esC3 = 10 := by
    norm_num [totalExportFrames, sC3, esC3, baseSettings] <;> rfl
  obtain ⟨stF, hloop⟩ := exportLoop_ok_snapshots sC3 esC3 999 [] []
    (totalExportFrames sC3 esC3) 0 []
    { ps := { psC3 with isPlaying := false, startTime := 999, currentTime := 0 }, grid := [] }
    rfl
  have hframes : c3Frames = (List.range (totalExportFrames sC3 esC3)).map
      (fun j => { { psC3 with isPlaying := false, startTime := 999, currentTime := 0 } with
                  currentTime := (((0 + j : ℕ) : ℚ) / esC3.fps) * 1000 }) := by
    simp only [c3Frames, exportSequence]
    rw [hloop]
    simp only [List.nil_append]
  rw [hframes, hn]
  refine ⟨?_, ?_, ?_, rfl, ?_, by norm_num⟩
  · simp [List.getD, List.getElem?_map, List.getElem?_range]
  · simp [List.getD, List.getElem?_map, List.getElem?_range, esC3]
    norm_num
  · simp [List.getD, List.getElem?_map, List.getElem?_range, psC3, basePS]
  · norm_num [updateAnimationState, cyclePosition, pulseScaleOf, jsRem, qTrunc,
      sC3, psC3, baseSettings, basePS]

/-- With the pulse pattern disabled no generator output depends on the
wall clock: `Date.now()` is read only by `collectPulsePoints` (engine
line 413). -/
lemma updateAnimatedPoints_no_wall_clock (s : AnimationSettings) (ps : PlaybackState)
    (shape : List ShapePoint) (hp : s.enablePulse = false) (now₁ now₂ : ℚ) :
    updateAnimatedPoints s ps now₁ shape = updateAnimatedPoints s ps now₂ shape := by
  simp [updateAnimatedPoints, hp]

/-- Claim C2 (corrected to exclude the pulse pattern): for a fixed
settings record and a fixed injected playback state (`isPlaying =
false`, as in the export loop), the whole per-frame computation is
independent of the wall clock whenever `enablePulse = false` — so the
per-element `targetBrightness` and `currentColor` are identical across
invocations for every combination of the other patterns. -/
theorem updateAnimation_deterministic_without_pulse
    (s : AnimationSettings) (now₁ now₂ : ℚ) (shape : List ShapePoint)
    (dithered : List (List ℚ)) (st : EngineState)
    (hp : s.enablePulse = false) (hplay : st.ps.isPlaying = false) :
    updateAnimation s now₁ shape dithered st = updateAnimation s now₂ shape dithered st := by
  simp only [updateAnimation]
  rw [updateAnimationState_not_playing s now₁ st.ps hplay,
    updateAnimationState_not_playing s now₂ st.ps hplay,
    updateAnimatedPoints_no_wall_clock s st.ps shape hp now₁ now₂]

/-- Witness for `updateAnimation_deterministic_without_pulse` at wall
clocks 0 and 1000. -/
theorem updateAnimation_deterministic_without_pulse_witness :
    baseSettings.enablePulse = false ∧
    ({ basePS with isPlaying := false } : PlaybackState).isPlaying = false ∧
    updateAnimation baseSettings 0 [] [] { ps := { basePS with isPlaying := false }, grid := [] } =
      updateAnimation baseSettings 1000 [] []
        { ps := { basePS with isPlaying := false }, grid := [] } :=
  ⟨rfl, rfl, updateAnimation_deterministic_without_pulse baseSettings 0 1000 [] [] _ rfl rfl⟩

set_option maxHeartbeats 3200000 in
set_option maxRecDepth 8000 in
/-- Claim C2 counterexample: with the pulse pattern enabled, the frame
computed at the same settings and the same injected `currentTime = 0`
differs between wall clock 0 and wall clock 1000 — element (1,1)'s
target brightness is 255 in one and 206.55 in the other, because
`collectPulsePoints` reads `Date.now()` directly. -/
theorem updateAnimation_pulse_reads_wall_clock :
    gridTarget c2GridA 1 1 = 255 ∧ gridTarget c2GridB 1 1 = 4131 / 20 ∧
    (255 : ℚ) ≠ 4131 / 20 := by
  refine ⟨?_, ?_, by norm_num⟩ <;>
  · norm_num [c2GridA, c2GridB, updateAnimation, updateAnimationState, updateAnimatedPoints,
      collectPulsePoints, updateLEDStates, patternStage, resetGrid, mapGrid, processPoint,
      transformXYZ, activateLEDsNearPoint, activateLED, ledWithin, distLt, clampQ, mapRange,
      applyModifiers, createLEDGrid, gridTarget, ledAt, sC2, psC2, basePS, baseSettings,
      jsRem, qTrunc, piQ, qRangeLt, rangeAux, List.range_succ]

/-- Elementwise view of a whole-grid map. -/
lemma ledAt_mapGrid (f : LEDState → LEDState) (g : Grid) (r c : ℕ) :
    ledAt (mapGrid f g) r c = (ledAt g r c).map f := by
  unfold ledAt mapGrid
  cases hg : g[r]? with
  | none => simp [List.getElem?_map, hg]
  | some row => simp [List.getElem?_map, hg]

/-- Index view of `mapRowsFrom`. -/
lemma mapRowsFrom_getElem? (f : ℕ → α → β) :
    ∀ (l : List α) (i n : ℕ), (mapRowsFrom f i l)[n]? = (l[n]?).map (f (i + n)) := by
  intro l
  induction l with
  | nil => intro i n ; simp [mapRowsFrom]
  | cons a as ih =>
    intro i n
    cases n with
    | zero => simp [mapRowsFrom]
    | succ n =>
      simp only [mapRowsFrom, List.getElem?_cons_succ, ih (i + 1) n]
      have h : i + 1 + n = i + (n + 1) := by omega
      rw [h]

/-- Elementwise view of an index-carrying grid map. -/
lemma ledAt_mapGridIdx (f : ℕ → ℕ → LEDState → LEDState) (g : Grid) (r c : ℕ) :
    ledAt (mapGridIdx f g) r c = (ledAt g r c).map (f r c) := by
  unfold ledAt mapGridIdx
  rw [mapRowsFrom_getElem?]
  cases hg : g[r]? with
  | none => simp
  | some row => simp [mapRowsFrom_getElem?]

/-- Elementwise view of `activateLEDsNearPoint`. -/
lemma ledAt_activate (s : AnimationSettings) (ps : PlaybackState) (x y b : ℚ)
    (g : Grid) (r c : ℕ) :
    ledAt (activateLEDsNearPoint s ps x y b g) r c =
      (ledAt g r c).map (activateLED s ps x y b) :=
  ledAt_mapGrid (activateLED s ps x y b) g r c

/-- Elementwise view of the reset loop. -/
lemma ledAt_resetGrid (s : AnimationSettings) (g : Grid) (r c : ℕ) :
    ledAt (resetGrid s g) r c =
      (ledAt g r c).map
        (fun led => { led with targetBrightness := 0, currentColor := s.ledColor }) :=
  ledAt_mapGrid _ g r c

/-- Elementwise view of the media-only overwrite. -/
lemma ledAt_mediaApply (d : List (List ℚ)) (g : Grid) (r c : ℕ) :
    ledAt (mediaApply d g) r c =
      (ledAt g r c).map (fun led =>
        match lookup2 d r c with
        | some v => { led with targetBrightness := v }
        | none => led) :=
  ledAt_mapGridIdx _ g r c

/-- Elementwise view of the combined-mode blend. -/
lemma ledAt_combineApply (d : List (List ℚ)) (g : Grid) (r c : ℕ) :
    ledAt (combineApply d g) r c =
      (ledAt g r c).map (fun led =>
        match lookup2 d r c with
        | some m => { led with targetBrightness := max m led.targetBrightness }
        | none => led) :=
  ledAt_mapGridIdx _ g r c

/-- Elementwise view of the per-point depth handling. -/
lemma ledAt_processPoint (s : AnimationSettings) (ps : PlaybackState)
    (p : AnimationPoint3D) (g : Grid) (r c : ℕ) :
    ledAt (processPoint s ps g p) r c = (ledAt g r c).map (processLED s ps p) := by
  by_cases h1 : s.enableYAxisRotate = true
  · by_cases h2 : (transformXYZ s ps p).2.2 < 50
    · rw [show processPoint s ps g p = activateLEDsNearPoint s ps (transformXYZ s ps p).1
          (transformXYZ s ps p).2.1
          (clampQ 0 255 (p.brightness * mapRange (transformXYZ s ps p).2.2 (-100) 100 1.2 0.3)) g
        from by simp [processPoint, h1, h2]]
      rw [ledAt_activate]
      cases ledAt g r c with
      | none => rfl
      | some led => simp [processLED, h1, h2]
    · rw [show processPoint s ps g p = g from by simp [processPoint, h1, h2]]
      cases ledAt g r c with
      | none => rfl
      | some led => simp [processLED, h1, h2]
  · have h1' : s.enableYAxisRotate = false := by
      cases hY : s.enableYAxisRotate
      · rfl
      · exact absurd hY h1
    rw [show processPoint s ps g p = activateLEDsNearPoint s ps (transformXYZ s ps p).1
        (transformXYZ s ps p).2.1 p.brightness g from by simp [processPoint, h1']]
    rw [ledAt_activate]
    cases ledAt g r c with
    | none => rfl
    | some led => simp [processLED, h1']

/-- Elementwise view of folding the per-point handling over a point
list (the body of `updateLEDStates`'s main loop). -/
lemma ledAt_foldl_processPoint (s : AnimationSettings) (ps : PlaybackState) :
    ∀ (pts : List AnimationPoint3D) (g : Grid) (r c : ℕ),
      ledAt (pts.foldl (processPoint s ps) g) r c =
        (ledAt g r c).map
          (fun led => pts.foldl (fun l p => processLED s ps p l) led) := by
  intro pts
  induction pts with
  | nil => intro g r c ; simp
  | cons p pts ih =>
    intro g r c
    simp only [List.foldl_cons]
    rw [ih, ledAt_processPoint]
    cases ledAt g r c <;> rfl

/-- With both post-modifiers disabled, `applyModifiers` is the
identity. -/
lemma applyModifiers_disabled (s : AnimationSettings) (ps : PlaybackState) (g : Grid)
    (hfl : s.enableFlicker = false) (hsp : s.enableSpiralModifier = false) :
    applyModifiers s ps g = g := by
  simp [applyModifiers, hfl, hsp]

/-- Claim C4 (corrected): in media display mode with a non-empty media
grid and both post-modifiers disabled, a full frame update sets every
covered element's target brightness to the media value verbatim (the
pattern points are generated but never mapped).  The claim's "no later
stage alters the media-derived brightness" holds only because the
modifiers are off here — `applyModifiers` runs after the media branch
and, when enabled, does alter it (see the counterexample). -/
theorem media_mode_verbatim_without_modifiers
    (s : AnimationSettings) (ps : PlaybackState) (now : ℚ)
    (shape : List ShapePoint) (dithered : List (List ℚ)) (grid : Grid)
    (r c : ℕ) (v : ℚ)
    (hmode : s.displayMode = DisplayMode.media)
    (hne : dithered ≠ [])
    (hfl : s.enableFlicker = false) (hsp : s.enableSpiralModifier = false)
    (hv : lookup2 dithered r c = some v)
    (hled : (ledAt grid r c).isSome = true) :
    gridTarget (updateAnimation s now shape dithered { ps := ps, grid := grid }).grid r c
      = v := by
  obtain ⟨led, hsome⟩ := Option.isSome_iff_exists.mp hled
  simp only [updateAnimation]
  rw [applyModifiers_disabled s _ _ hfl hsp]
  rw [updateLEDStates, if_pos ⟨hmode, hne⟩]
  unfold gridTarget
  rw [ledAt_mediaApply, ledAt_resetGrid, hsome]
  simp [hv]

/-- Witness for `media_mode_verbatim_without_modifiers`: media value 42
lands verbatim on the 1×1 grid when the modifiers are off. -/
theorem media_mode_verbatim_without_modifiers_witness :
    lookup2 [[42]] 0 0 = some 42 ∧
    gridTarget (updateAnimation { sC4 with enableFlicker := false } 0 [] [[42]]
      { ps := psC4, grid := createLEDGrid sC4 }).grid 0 0 = 42 :=
  ⟨rfl, media_mode_verbatim_without_modifiers _ psC4 0 [] [[42]] (createLEDGrid sC4) 0 0 42
    rfl (by simp) rfl rfl rfl (by rfl)⟩

set_option maxHeartbeats 1600000 in
/-- Claim C4 counterexample: in media mode with the flicker modifier
enabled (`flickerAmount = 1`, `currentTime = 0`), the media brightness
255 is **not** kept verbatim: the flicker stage halves it to 127.5
(`sin 0 = 0` gives flicker value 0.5).  The post-modifiers are not
skipped in media mode. -/
theorem media_mode_flicker_alters_brightness :
    gridTarget c4Grid 0 0 = 255 / 2 ∧ (255 / 2 : ℚ) ≠ 255 := by
  refine ⟨?_, by norm_num⟩
  norm_num [c4Grid, updateAnimation, updateAnimationState, updateAnimatedPoints,
    collectStaticPoints, updateLEDStates, mediaApply, resetGrid, mapGrid, mapGridIdx,
    mapRowsFrom, lookup2, applyModifiers, applyFlickerEffect, clampQ, sinQ,
    createLEDGrid, gridTarget, ledAt, sC4, psC4, basePS, baseSettings, List.range_succ]

/-- Claim C8: per point, with Y-axis rotation enabled a post-rotation
depth `z ≥ 50` activates nothing (back-face cull); `z < 50` activates
with brightness `clamp₀²⁵⁵ (b × mapRange z (-100) 100 1.2 0.3)`; with Y
rotation disabled the raw brightness is used (engine lines 775-783). -/
theorem depth_cull_and_attenuation (s : AnimationSettings) (ps : PlaybackState)
    (grid : Grid) (p : AnimationPoint3D) :
    (s.enableYAxisRotate = true → 50 ≤ (transformXYZ s ps p).2.2 →
      processPoint s ps grid p = grid) ∧
    (s.enableYAxisRotate = true → (transformXYZ s ps p).2.2 < 50 →
      processPoint s ps grid p =
        activateLEDsNearPoint s ps (transformXYZ s ps p).1 (transformXYZ s ps p).2.1
          (clampQ 0 255 (p.brightness * mapRange (transformXYZ s ps p).2.2 (-100) 100 1.2 0.3))
          grid) ∧
    (s.enableYAxisRotate = false →
      processPoint s ps grid p =
        activateLEDsNearPoint s ps (transformXYZ s ps p).1 (transformXYZ s ps p).2.1
          p.brightness grid) := by
  refine ⟨?_, ?_, ?_⟩
  · intro h1 h2
    simp [processPoint, h1, not_lt.mpr h2]
  · intro h1 h2
    simp [processPoint, h1, h2]
  · intro h1
    simp [processPoint, h1]

/-- Witness for `depth_cull_and_attenuation`: with `yRotateAngle = 0`
the point at depth 60 is culled and the point at depth 0 is attenuated
(both hypotheses discharged concretely). -/
theorem depth_cull_and_attenuation_witness :
    (50 : ℚ) ≤ (transformXYZ sC8 basePS ptC8far).2.2 ∧
    processPoint sC8 basePS [] ptC8far = [] ∧
    (transformXYZ sC8 basePS ptC8near).2.2 < 50 ∧
    processPoint sC8 basePS [] ptC8near =
      activateLEDsNearPoint sC8 basePS (transformXYZ sC8 basePS ptC8near).1
        (transformXYZ sC8 basePS ptC8near).2.1
        (clampQ 0 255 (ptC8near.brightness *
          mapRange (transformXYZ sC8 basePS ptC8near).2.2 (-100) 100 1.2 0.3)) [] := by
  have h50 : (50 : ℚ) ≤ (transformXYZ sC8 basePS ptC8far).2.2 := by
    norm_num [transformXYZ, cosQ, sinQ, sC8, basePS, baseSettings, ptC8far]
  have hlt : (transformXYZ sC8 basePS ptC8near).2.2 < 50 := by
    norm_num [transformXYZ, cosQ, sinQ, sC8, basePS, baseSettings, ptC8near]
  exact ⟨h50, (depth_cull_and_attenuation sC8 basePS [] ptC8far).1 rfl h50, hlt,
    (depth_cull_and_attenuation sC8 basePS [] ptC8near).2.1 rfl hlt⟩

/-- Claim C7: in combined display mode with a non-empty media grid, the
target brightness `updateLEDStates` leaves on a covered element equals
`max(mediaBrightness, patternBrightness)`, where the pattern brightness
is what the pattern stage (reset + point rasterisation) computed — for
arbitrary playback states, point lists, media grids and grids (engine
lines 786-800). -/
theorem combined_mode_max_blend (s : AnimationSettings) (ps : PlaybackState)
    (dithered : List (List ℚ)) (pts : List AnimationPoint3D) (grid : Grid)
    (r c : ℕ) (m : ℚ)
    (hmode : s.displayMode = DisplayMode.combined) (hne : dithered ≠ [])
    (hm : lookup2 dithered r c = some m)
    (hled : (ledAt grid r c).isSome = true) :
    gridTarget (updateLEDStates s ps dithered pts grid) r c =
      max m (gridTarget (patternStage s ps pts grid) r c) := by
  obtain ⟨led, hsome⟩ := Option.isSome_iff_exists.mp hled
  have hmedia : ¬(s.displayMode = DisplayMode.media ∧ dithered ≠ []) := by
    simp [hmode]
  have hcomb : s.displayMode = DisplayMode.combined ∧ dithered ≠ [] := ⟨hmode, hne⟩
  rw [updateLEDStates, if_neg hmedia]
  rw [if_pos hcomb]
  have hpat : ∃ led', ledAt (patternStage s ps pts grid) r c = some led' := by
    unfold patternStage
    rw [ledAt_foldl_processPoint, ledAt_resetGrid, hsome]
    exact ⟨_, rfl⟩
  obtain ⟨led', hled'⟩ := hpat
  unfold gridTarget
  rw [ledAt_combineApply, hled', hm]
  simp

/-- Witness for `combined_mode_max_blend`: combined mode on the 1×1
grid with media value 100 and no pattern points gives
`max 100 (pattern 0)`. -/
theorem combined_mode_max_blend_witness :
    lookup2 [[100]] 0 0 = some 100 ∧
    gridTarget (updateLEDStates sC7 basePS [[100]] [] (createLEDGrid sC7)) 0 0 =
      max 100 (gridTarget (patternStage sC7 basePS [] (createLEDGrid sC7)) 0 0) :=
  ⟨rfl, combined_mode_max_blend sC7 basePS [[100]] [] (createLEDGrid sC7) 0 0 100
    rfl (by simp) rfl (by rfl)⟩

/-- `activateLED` never moves an element: the fixed original
coordinates are preserved. -/
lemma activateLED_original (s : AnimationSettings) (ps : PlaybackState)
    (x y b : ℚ) (led : LEDState) :
    (activateLED s ps x y b led).originalX = led.originalX ∧
    (activateLED s ps x y b led).originalY = led.originalY := by
  unfold activateLED
  split_ifs <;> simp

/-- The activation test reads only the element's original coordinates. -/
lemma ledWithin_congr (s : AnimationSettings) (x y : ℚ) (l1 l2 : LEDState)
    (hx : l1.originalX = l2.originalX) (hy : l1.originalY = l2.originalY) :
    ledWithin s x y l1 = ledWithin s x y l2 := by
  unfold ledWithin
  rw [hx, hy]

/-- One activation is max-wins on the target brightness. -/
lemma activateLED_target (s : AnimationSettings) (ps : PlaybackState)
    (x y b : ℚ) (led : LEDState) :
    (activateLED s ps x y b led).targetBrightness =
      if ledWithin s x y led = true then max led.targetBrightness b
      else led.targetBrightness := by
  by_cases h1 : ledWithin s x y led = true
  · by_cases h2 : b > led.targetBrightness
    · simp only [activateLED, if_pos h1, if_pos h2]
      exact (max_eq_right (le_of_lt h2)).symm
    · simp only [activateLED, if_pos h1, if_neg h2]
      exact (max_eq_left (not_lt.mp h2)).symm
  · simp only [activateLED, if_neg h1]

/-- The colour changes only when the point strictly raises the target
brightness (engine lines 812-827). -/
lemma activateLED_color_raise (s : AnimationSettings) (ps : PlaybackState)
    (x y b : ℚ) (led : LEDState) :
    (activateLED s ps x y b led).currentColor ≠ led.currentColor →
    led.targetBrightness < (activateLED s ps x y b led).targetBrightness := by
  by_cases h1 : ledWithin s x y led = true
  · by_cases h2 : b > led.targetBrightness
    · simp only [activateLED, if_pos h1, if_pos h2]
      intro _ ; exact h2
    · simp only [activateLED, if_pos h1, if_neg h2]
      intro hc ; exact absurd rfl hc
  · simp only [activateLED, if_neg h1]
    intro hc ; exact absurd rfl hc

/-- Folding activations over one element: the originals are preserved
and the brightness is the max-fold of the qualifying brightnesses. -/
lemma foldl_activateLED_spec (s : AnimationSettings) (ps : PlaybackState) :
    ∀ (pts : List (ℚ × ℚ × ℚ)) (led : LEDState),
      (pts.foldl (fun l q => activateLED s ps q.1 q.2.1 q.2.2 l) led).originalX =
        led.originalX ∧
      (pts.foldl (fun l q => activateLED s ps q.1 q.2.1 q.2.2 l) led).originalY =
        led.originalY ∧
      (pts.foldl (fun l q => activateLED s ps q.1 q.2.1 q.2.2 l) led).targetBrightness =
        ((pts.filter (fun q => ledWithin s q.1 q.2.1 led)).map (fun q => q.2.2)).foldl
          max led.targetBrightness := by
  intro pts
  induction pts with
  | nil => intro led ; exact ⟨rfl, rfl, rfl⟩
  | cons q pts ih =>
    intro led
    obtain ⟨hx, hy, ht⟩ := ih (activateLED s ps q.1 q.2.1 q.2.2 led)
    have hox := (activateLED_original s ps q.1 q.2.1 q.2.2 led).1
    have hoy := (activateLED_original s ps q.1 q.2.1 q.2.2 led).2
    have hfeq : pts.filter
        (fun q' => ledWithin s q'.1 q'.2.1 (activateLED s ps q.1 q.2.1 q.2.2 led)) =
        pts.filter (fun q' => ledWithin s q'.1 q'.2.1 led) :=
      List.filter_congr (fun q' _ => by rw [ledWithin_congr s q'.1 q'.2.1 _ _ hox hoy])
    refine ⟨?_, ?_, ?_⟩
    · rw [List.foldl_cons, hx, hox]
    · rw [List.foldl_cons, hy, hoy]
    · rw [List.foldl_cons, ht, hfeq]
      by_cases hw : ledWithin s q.1 q.2.1 led = true
      · have hsplit : (q :: pts).filter (fun q' => ledWithin s q'.1 q'.2.1 led) =
            q :: pts.filter (fun q' => ledWithin s q'.1 q'.2.1 led) := by
          simp [List.filter_cons, hw]
        rw [hsplit, List.map_cons, List.foldl_cons]
        congr 1
        rw [activateLED_target, if_pos hw]
      · have hsplit : (q :: pts).filter (fun q' => ledWithin s q'.1 q'.2.1 led) =
            pts.filter (fun q' => ledWithin s q'.1 q'.2.1 led) := by
          simp [List.filter_cons, hw]
        rw [hsplit, activateLED_target, if_neg hw]

/-- A max-fold bounds its start and every element. -/
lemma le_foldl_max : ∀ (l : List ℚ) (a : ℚ),
    a ≤ l.foldl max a ∧ ∀ b ∈ l, b ≤ l.foldl max a := by
  intro l
  induction l with
  | nil => intro a ; exact ⟨le_refl a, by simp⟩
  | cons x l ih =>
    intro a
    obtain ⟨h1, h2⟩ := ih (max a x)
    refine ⟨le_trans (le_max_left a x) h1, ?_⟩
    intro b hb
    rcases List.mem_cons.mp hb with rfl | hb'
    · exact le_trans (le_max_right a b) h1
    · exact h2 b hb'

/-- A max-fold returns its start or a list element. -/
lemma foldl_max_mem : ∀ (l : List ℚ) (a : ℚ), l.foldl max a = a ∨ l.foldl max a ∈ l := by
  intro l
  induction l with
  | nil => intro a ; exact Or.inl rfl
  | cons x l ih =>
    intro a
    rw [List.foldl_cons]
    rcases ih (max a x) with h | h
    · rcases le_or_lt x a with hxa | hxa
      · left ; rw [h, max_eq_left hxa]
      · right ; rw [h, max_eq_right hxa.le] ; exact List.mem_cons_self x l
    · right
      exact List.mem_cons_of_mem x h

/-- Elementwise view of the grid mapper over a list of transformed
screen points. -/
lemma ledAt_mapPoints (s : AnimationSettings) (ps : PlaybackState) :
    ∀ (pts : List (ℚ × ℚ × ℚ)) (g : Grid) (r c : ℕ),
      ledAt (mapPoints s ps pts g) r c =
        (ledAt g r c).map
          (fun led => pts.foldl (fun l q => activateLED s ps q.1 q.2.1 q.2.2 l) led) := by
  intro pts
  induction pts with
  | nil => intro g r c ; simp [mapPoints]
  | cons q pts ih =>
    intro g r c
    unfold mapPoints
    rw [List.foldl_cons]
    have h := ih (activateLEDsNearPoint s ps q.1 q.2.1 q.2.2 g) r c
    unfold mapPoints at h
    rw [h, ledAt_activate]
    cases ledAt g r c <;> rfl

/-- Claim C5: starting from a reset element (target 0), the grid mapper
folded over any list of transformed points `(x, y, brightness)` with
nonnegative brightness yields exactly the maximum brightness over the
points within `0.7 × spacing` of the element's fixed original position
(0 when no point qualifies) — never a blend; and an element's colour is
changed by an activation only when that activation strictly raises its
target brightness. -/
theorem grid_mapper_max_wins (s : AnimationSettings) (ps : PlaybackState)
    (pts : List (ℚ × ℚ × ℚ)) (grid : Grid) (r c : ℕ) (led : LEDState)
    (hled : ledAt grid r c = some led)
    (h0 : led.targetBrightness = 0)
    (hnn : ∀ q ∈ pts, 0 ≤ q.2.2) :
    (∃ led', ledAt (mapPoints s ps pts grid) r c = some led' ∧
      ((pts.filter (fun q => ledWithin s q.1 q.2.1 led)).map (fun q => q.2.2) = [] ∧
        led'.targetBrightness = 0 ∨
       led'.targetBrightness ∈
          (pts.filter (fun q => ledWithin s q.1 q.2.1 led)).map (fun q => q.2.2) ∧
       ∀ b ∈ (pts.filter (fun q => ledWithin s q.1 q.2.1 led)).map (fun q => q.2.2),
         b ≤ led'.targetBrightness)) ∧
    ∀ (l : LEDState) (q : ℚ × ℚ × ℚ),
      (activateLED s ps q.1 q.2.1 q.2.2 l).currentColor ≠ l.currentColor →
      l.targetBrightness < (activateLED s ps q.1 q.2.1 q.2.2 l).targetBrightness := by
  constructor
  · rw [ledAt_mapPoints s ps pts grid r c, hled]
    refine ⟨_, rfl, ?_⟩
    obtain ⟨_, _, ht⟩ := foldl_activateLED_spec s ps pts led
    rw [ht, h0]
    have hnnL : ∀ x ∈ (pts.filter (fun q => ledWithin s q.1 q.2.1 led)).map
        (fun q => q.2.2), 0 ≤ x := by
      intro x hx
      obtain ⟨q, hq, rfl⟩ := List.mem_map.mp hx
      exact hnn q (List.mem_of_mem_filter hq)
    cases hL : (pts.filter (fun q => ledWithin s q.1 q.2.1 led)).map (fun q => q.2.2) with
    | nil => exact Or.inl ⟨rfl, rfl⟩
    | cons b bs =>
      right
      obtain ⟨_, hub⟩ := le_foldl_max (b :: bs) 0
      rcases foldl_max_mem (b :: bs) 0 with hz | hmem
      · have hb0 : b = 0 := by
          have hble := hub b (List.mem_cons_self b bs)
          rw [hz] at hble
          have hbge : 0 ≤ b := hnnL b (by rw [hL] ; exact List.mem_cons_self b bs)
          exact le_antisymm hble hbge
        rw [hz]
        exact ⟨by rw [← hb0] ; exact List.mem_cons_self b bs,
          fun x hx => by have := hub x hx ; rwa [hz] at this⟩
      · exact ⟨hmem, hub⟩
  · exact fun l q => activateLED_color_raise s ps q.1 q.2.1 q.2.2 l

/-- Witness for `grid_mapper_max_wins`: two overlapping points of
brightness 100 and 200 at the origin of the 2×2 grid. -/
theorem grid_mapper_max_wins_witness :
    ledAt (createLEDGrid sC5) 1 1 = some ledC5 ∧
    ((∃ led', ledAt (mapPoints sC5 basePS ptsC5 (createLEDGrid sC5)) 1 1 = some led' ∧
      ((ptsC5.filter (fun q => ledWithin sC5 q.1 q.2.1 ledC5)).map (fun q => q.2.2) = [] ∧
        led'.targetBrightness = 0 ∨
       led'.targetBrightness ∈
          (ptsC5.filter (fun q => ledWithin sC5 q.1 q.2.1 ledC5)).map (fun q => q.2.2) ∧
       ∀ b ∈ (ptsC5.filter (fun q => ledWithin sC5 q.1 q.2.1 ledC5)).map (fun q => q.2.2),
         b ≤ led'.targetBrightness)) ∧
    ∀ (l : LEDState) (q : ℚ × ℚ × ℚ),
      (activateLED sC5 basePS q.1 q.2.1 q.2.2 l).currentColor ≠ l.currentColor →
      l.targetBrightness < (activateLED sC5 basePS q.1 q.2.1 q.2.2 l).targetBrightness) := by
  have hled : ledAt (createLEDGrid sC5) 1 1 = some ledC5 := by
    norm_num [ledAt, createLEDGrid, List.range_succ, sC5, baseSettings, ledC5, basePS]
  exact ⟨hled, grid_mapper_max_wins sC5 basePS ptsC5 (createLEDGrid sC5) 1 1 ledC5
    hled rfl (by norm_num [ptsC5])⟩

end LedSpace
